import Mathlib

/-!
Shallow embedding of the Scene Lifecycle and Transition Manager of the
repository (src/scene/sceneManager.js) together with the two Scene Units
(Scene1, Scene2).  State is passed explicitly; JavaScript exceptions are
modelled as an `Option Err` result component, with the state returned
alongside reflecting exactly the mutations performed before the throw.
Side effects observable to the outside (console.warn calls, camera and
lighting service calls, geometry/material disposal) are recorded in an
event log carried in the manager state.  Object transforms are abstracted
away at the manager level (Scene2 places decor using Math.random, and no
claim depends on positions); the per-frame animation of the scene units'
named decor is modelled separately by `Scene1Anim` and `Scene2Anim` below,
with Math.sin passed in as an explicit function parameter (it is an
external library function).
-/

/-- Errors thrown by the manager / scene units.  Each constructor stands for
one `throw new Error(...)` site in the source (or a JavaScript TypeError from
dereferencing a null scene handle). -/
inductive Err where
  /-- sceneManager.js line 83: thrown when the requested scene name is absent. -/
  | notFound (n : String)
  /-- sceneManager.js line 118: thrown when the target unit's getScene() is null. -/
  | notProperlyInit (n : String)
  /-- sceneManager.js line 364: thrown when removing the currently active scene. -/
  | activeSceneRemoval (n : String)
  /-- sceneManager.js line 217: thrown by loadModelIntoCurrentScene with no active scene. -/
  | noActiveSceneLoad
  /-- JavaScript TypeError from calling a method on a null scene handle. -/
  | typeError
deriving Repr, DecidableEq

/-- Observable side effects: console.warn calls, camera service calls,
lighting service calls, and geometry/material disposal of an object. -/
inductive Ev where
  /-- scene unit loadModel: console.warn on an unrecognized model type. -/
  | warnUnknownModelType (t : String)
  /-- sceneManager.js line 238: warn when removing a model with no active scene. -/
  | warnNoActiveSceneRemove
  /-- sceneManager.js line 250: warn when clearing models with no active scene. -/
  | warnNoActiveSceneClear
  /-- sceneManager.js line 358: warn when removeScene is given an unknown name. -/
  | warnSceneNotFound (n : String)
  /-- sceneManager.js line 331: warn when addScene replaces an existing name. -/
  | warnSceneExistsReplacing (n : String)
  /-- cameraManager.setPosition(x, y, z). -/
  | setPosition (x y z : Int)
  /-- cameraManager.setTarget(x, y, z). -/
  | setTarget (x y z : Int)
  /-- lightsManager.applyPreset(p). -/
  | applyLightPreset (p : String)
  /-- lightsManager.addToScene(scene), called during scene unit init. -/
  | lightsAddToScene
  /-- geometry.dispose() / material.dispose() of the object with this id. -/
  | release (objId : Nat)
deriving Repr, DecidableEq

/-- A scene-graph node tracked in a Scene Unit's `objects` array.  `id` is the
object's identity (JavaScript object identity); `isLoadedModel` and
`modelType` model the `userData` flags set by loadModel (absent, hence falsy
and `""`, on static decor). -/
structure Obj where
  id : Nat
  name : String
  isLoadedModel : Bool
  modelType : String
deriving Repr, DecidableEq

/-- Which scene class a unit is an instance of (Scene1 or Scene2). -/
inductive SceneKind where
  | scene1
  | scene2
deriving Repr, DecidableEq

/-- State of one Scene Unit.  `scene` is the THREE.Scene handle: `none` models
the null handle (fresh or disposed unit), `some g` holds the ids of the nodes
added to the graph via scene.add.  `objects` is the `this.objects` array. -/
structure SceneUnit where
  kind : SceneKind
  scene : Option (List Nat)
  objects : List Obj
  isInitialized : Bool
deriving Repr, DecidableEq

/-- Scene1 constructor: null scene, empty objects, not initialized. -/
def Scene1.new : SceneUnit := ⟨SceneKind.scene1, none, [], false⟩

/-- Scene2 constructor: null scene, empty objects, not initialized. -/
def Scene2.new : SceneUnit := ⟨SceneKind.scene2, none, [], false⟩

/-- The `name` given to a freshly created loaded model (createStyledCube /
createStyledSphere in Scene1, createAdvancedCube / createAdvancedSphere in
Scene2). -/
def loadedModelName (k : SceneKind) (t : String) : String :=
  match k, t with
  | SceneKind.scene1, "cube" => "LoadedCube"
  | SceneKind.scene1, "sphere" => "LoadedSphere"
  | SceneKind.scene2, "cube" => "LoadedAdvancedCube"
  | SceneKind.scene2, "sphere" => "LoadedAdvancedSphere"
  | _, _ => ""

/-- Scene unit init (Scene1.init / Scene2.init).  Creates a fresh scene graph,
adds lights via the lighting service (Scene2 additionally applies the night
preset), pushes the static decor onto `objects` (Scene1: ground plus five
sample shapes; Scene2: floor, four walls, crystal formation, floating
platforms, spiral structure, glowing orbs, particle system), adds the helpers
(axes, and for Scene1 a grid) to the graph only, and marks the unit
initialized.  `nid` supplies fresh object identities; returns the next unused
id.  Note the source appends to any pre-existing `objects` (init never clears
the array), which this definition reproduces. -/
def SceneUnit.initU (u : SceneUnit) (nid : Nat) : SceneUnit × Nat × List Ev :=
  match u.kind with
  | SceneKind.scene1 =>
    let objs : List Obj :=
      [⟨nid, "Ground", false, ""⟩, ⟨nid + 1, "Cube", false, ""⟩,
       ⟨nid + 2, "Sphere", false, ""⟩, ⟨nid + 3, "Cylinder", false, ""⟩,
       ⟨nid + 4, "Torus", false, ""⟩, ⟨nid + 5, "Cone", false, ""⟩]
    ({ u with scene := some (objs.map (fun o => o.id) ++ [nid + 6, nid + 7]),
              objects := u.objects ++ objs,
              isInitialized := true },
     nid + 8, [Ev.lightsAddToScene])
  | SceneKind.scene2 =>
    let objs : List Obj :=
      [⟨nid, "Floor", false, ""⟩, ⟨nid + 1, "FrontWall", false, ""⟩,
       ⟨nid + 2, "BackWall", false, ""⟩, ⟨nid + 3, "LeftWall", false, ""⟩,
       ⟨nid + 4, "RightWall", false, ""⟩, ⟨nid + 5, "CrystalFormation", false, ""⟩,
       ⟨nid + 6, "FloatingPlatforms", false, ""⟩, ⟨nid + 7, "SpiralStructure", false, ""⟩,
       ⟨nid + 8, "GlowingOrbs", false, ""⟩, ⟨nid + 9, "Particles", false, ""⟩]
    ({ u with scene := some (objs.map (fun o => o.id) ++ [nid + 10]),
              objects := u.objects ++ objs,
              isInitialized := true },
     nid + 11, [Ev.lightsAddToScene, Ev.applyLightPreset "night"])

/-- Scene unit loadModel.  Recognized tags are "cube" and "sphere"; anything
else warns and returns (no state change).  On a recognized tag the model mesh
is created, marked with userData flags, added to the scene graph and appended
to `objects`.  `this.scene.add(model)` on a null handle throws a TypeError
before the push, so on a null scene the unit is returned unchanged with an
error. -/
def SceneUnit.loadModel (u : SceneUnit) (t : String) (nid : Nat) :
    SceneUnit × Nat × List Ev × Option Err :=
  if t = "cube" ∨ t = "sphere" then
    match u.scene with
    | none => (u, nid, [], some Err.typeError)
    | some g =>
      ({ u with scene := some (g ++ [nid]),
                objects := u.objects ++ [⟨nid, loadedModelName u.kind t, true, t⟩] },
       nid + 1, [], none)
  else (u, nid, [Ev.warnUnknownModelType t], none)

/-- findIndex followed by splice(idx, 1): returns the first element satisfying
`p` together with the list with that element removed. -/
def removeFirstBy (p : Obj → Bool) : List Obj → Option (Obj × List Obj)
  | [] => none
  | o :: rest =>
    if p o then some (o, rest)
    else
      match removeFirstBy p rest with
      | none => none
      | some (m, rest2) => some (m, o :: rest2)

/-- Scene unit removeModel: removes the first object flagged as a loaded model
of the given type from `objects` and from the scene graph, releasing its
geometry/material; silent no-op when there is no match.  `this.scene.remove`
on a null handle throws before the splice. -/
def SceneUnit.removeModel (u : SceneUnit) (t : String) :
    SceneUnit × List Ev × Option Err :=
  match removeFirstBy (fun o => o.isLoadedModel && o.modelType == t) u.objects with
  | none => (u, [], none)
  | some (m, rest) =>
    match u.scene with
    | none => (u, [], some Err.typeError)
    | some g =>
      ({ u with scene := some (g.erase m.id), objects := rest },
       [Ev.release m.id], none)

/-- Scene unit clearModels: removes every object flagged as a loaded model
from the scene graph and releases its resources, then filters them out of
`objects`; static decor is untouched.  The forEach dereferences `this.scene`
only when there is at least one loaded model, so a null scene with loaded
models throws before any mutation. -/
def SceneUnit.clearModels (u : SceneUnit) : SceneUnit × List Ev × Option Err :=
  match u.objects.filter (fun o => o.isLoadedModel), u.scene with
  | [], _ =>
    ({ u with objects := u.objects.filter (fun o => !o.isLoadedModel) }, [], none)
  | _ :: _, none => (u, [], some Err.typeError)
  | lm :: rest, some g =>
    ({ u with scene := some ((lm :: rest).foldl (fun acc o => acc.erase o.id) g),
              objects := u.objects.filter (fun o => !o.isLoadedModel) },
     (lm :: rest).map (fun o => Ev.release o.id), none)

/-- Scene unit dispose: guarded by `if (this.scene)`, so a second call is a
no-op.  Releases every owned object's resources, clears `objects`, nulls the
scene handle and resets the initialized flag. -/
def SceneUnit.disposeU (u : SceneUnit) : SceneUnit × List Ev :=
  match u.scene with
  | none => (u, [])
  | some _ =>
    ({ u with scene := none, objects := [], isInitialized := false },
     u.objects.map (fun o => Ev.release o.id))

/-- Scene unit getModelCount: number of objects flagged as loaded models. -/
def SceneUnit.getModelCount (u : SceneUnit) : Nat :=
  (u.objects.filter (fun o => o.isLoadedModel)).length

/-- State of the SceneManager.  `scenes` models the plain-object registry as
an insertion-ordered association list with unique keys; the three `has*`
flags model whether the corresponding service reference is non-null; `log`
is the chronological event trace. -/
structure MState where
  scenes : List (String × SceneUnit)
  currentSceneName : Option String
  isInitialized : Bool
  hasCameraManager : Bool
  hasLightsManager : Bool
  hasModelLoader : Bool
  nextId : Nat
  log : List Ev
deriving Repr, DecidableEq

/-- SceneManager constructor: empty registry, no active scene, no services. -/
def SceneManager.new : MState := ⟨[], none, false, false, false, false, 0, []⟩

/-- Property lookup `this.scenes[name]` on the registry. -/
def lookupU : List (String × SceneUnit) → String → Option SceneUnit
  | [], _ => none
  | (k, v) :: rest, n => if k = n then some v else lookupU rest n

/-- Property assignment `this.scenes[name] = u`: replaces in place when the
key exists (JavaScript keeps its insertion position), appends otherwise. -/
def insertU : List (String × SceneUnit) → String → SceneUnit → List (String × SceneUnit)
  | [], n, u => [(n, u)]
  | (k, v) :: rest, n, u =>
    if k = n then (n, u) :: rest else (k, v) :: insertU rest n u

/-- `delete this.scenes[name]`. -/
def eraseKey : List (String × SceneUnit) → String → List (String × SceneUnit)
  | [], _ => []
  | (k, v) :: rest, n => if k = n then rest else (k, v) :: eraseKey rest n

/-- `this.scenes[name]` as an operation on the manager state. -/
def MState.getUnit (st : MState) (n : String) : Option SceneUnit :=
  lookupU st.scenes n

/-- sceneManager.js applyCameraSettings: scene-specific camera position and
target, nothing for unknown names, early return when the camera service
reference is null. -/
def applyCameraSettings (n : String) (st : MState) : MState :=
  if st.hasCameraManager then
    if n = "scene1" then
      { st with log := st.log ++ [Ev.setPosition 0 5 10, Ev.setTarget 0 0 0] }
    else if n = "scene2" then
      { st with log := st.log ++ [Ev.setPosition 5 8 15, Ev.setTarget 0 2 0] }
    else st
  else st

/-- sceneManager.js applyLightingSettings: daylight preset for scene1, night
preset for scene2, nothing otherwise, early return when the lighting service
reference is null. -/
def applyLightingSettings (n : String) (st : MState) : MState :=
  if st.hasLightsManager then
    if n = "scene1" then { st with log := st.log ++ [Ev.applyLightPreset "daylight"] }
    else if n = "scene2" then { st with log := st.log ++ [Ev.applyLightPreset "night"] }
    else st
  else st

/-- sceneManager.js performSceneTransition: reads the target unit's scene
handle and throws before any preset application when it is null; otherwise
applies the camera settings and then the lighting settings.  (The `none`
branch of the outer match is the TypeError of indexing a missing key; it is
unreachable from switchScene, which checks membership first.) -/
def performSceneTransition (n : String) (st : MState) : MState × Option Err :=
  match st.getUnit n with
  | none => (st, some Err.typeError)
  | some u =>
    match u.scene with
    | none => (st, some (Err.notProperlyInit n))
    | some _ => (applyLightingSettings n (applyCameraSettings n st), none)

/-- sceneManager.js switchScene: unknown name throws; switching to the
currently active name returns immediately; otherwise the transition runs and
only on its success is `currentSceneName` assigned. -/
def SceneManager.switchScene (n : String) (st : MState) : MState × Option Err :=
  if (st.getUnit n).isSome then
    if st.currentSceneName = some n then (st, none)
    else
      match performSceneTransition n st with
      | (st1, some e) => (st1, some e)
      | (st1, none) => ({ st1 with currentSceneName := some n }, none)
  else (st, some (Err.notFound n))

/-- sceneManager.js loadModelIntoCurrentScene: throws (and the catch block
rethrows) when there is no active scene; otherwise delegates to the active
unit's loadModel, whose error (if any) is likewise rethrown. -/
def SceneManager.loadModelIntoCurrentScene (t : String) (st : MState) :
    MState × Option Err :=
  match st.currentSceneName with
  | none => (st, some Err.noActiveSceneLoad)
  | some n =>
    match st.getUnit n with
    | none => (st, some Err.noActiveSceneLoad)
    | some u =>
      match u.loadModel t st.nextId with
      | (u1, nid1, evs, err) =>
        ({ st with scenes := insertU st.scenes n u1, nextId := nid1,
                   log := st.log ++ evs }, err)

/-- sceneManager.js removeModelFromCurrentScene: warns and returns when there
is no active scene; otherwise delegates to the active unit's removeModel. -/
def SceneManager.removeModelFromCurrentScene (t : String) (st : MState) :
    MState × Option Err :=
  match st.currentSceneName with
  | none => ({ st with log := st.log ++ [Ev.warnNoActiveSceneRemove] }, none)
  | some n =>
    match st.getUnit n with
    | none => ({ st with log := st.log ++ [Ev.warnNoActiveSceneRemove] }, none)
    | some u =>
      match u.removeModel t with
      | (u1, evs, err) =>
        ({ st with scenes := insertU st.scenes n u1, log := st.log ++ evs }, err)

/-- sceneManager.js clearCurrentSceneModels: warns and returns when there is
no active scene; otherwise delegates to the active unit's clearModels. -/
def SceneManager.clearCurrentSceneModels (st : MState) : MState × Option Err :=
  match st.currentSceneName with
  | none => ({ st with log := st.log ++ [Ev.warnNoActiveSceneClear] }, none)
  | some n =>
    match st.getUnit n with
    | none => ({ st with log := st.log ++ [Ev.warnNoActiveSceneClear] }, none)
    | some u =>
      match u.clearModels with
      | (u1, evs, err) =>
        ({ st with scenes := insertU st.scenes n u1, log := st.log ++ evs }, err)

/-- sceneManager.js update: no-op unless initialized with an active scene;
the active unit's update only mutates object transforms (modelled separately
by `Scene1Anim`), never the registry, the object lists or the graphs, so at
this level of abstraction the state is unchanged in every branch. -/
def SceneManager.update (st : MState) : MState :=
  if st.isInitialized then
    match st.currentSceneName with
    | none => st
    | some _ => st
  else st

/-- sceneManager.js removeScene: warns and returns on an unknown name; throws
on the active name before any mutation; otherwise disposes the unit and
deletes its key. -/
def SceneManager.removeScene (n : String) (st : MState) : MState × Option Err :=
  match st.getUnit n with
  | none => ({ st with log := st.log ++ [Ev.warnSceneNotFound n] }, none)
  | some u =>
    if st.currentSceneName = some n then (st, some (Err.activeSceneRemoval n))
    else
      ({ st with scenes := eraseKey st.scenes n,
                 log := st.log ++ (u.disposeU).2 }, none)

/-- sceneManager.js addScene: when the name already exists it warns and calls
removeScene (whose error, if the name is active, flows to the catch block and
is rethrown, aborting the registration); then it stores the new unit and,
when all three service references are available, initializes it (its init
error would likewise be rethrown; the modelled init is total). -/
def SceneManager.addScene (n : String) (u : SceneUnit) (st : MState) :
    MState × Option Err :=
  match (if (st.getUnit n).isSome then
           SceneManager.removeScene n
             { st with log := st.log ++ [Ev.warnSceneExistsReplacing n] }
         else (st, none)) with
  | (st1, some e) => (st1, some e)
  | (st1, none) =>
    if st1.hasCameraManager && st1.hasLightsManager && st1.hasModelLoader then
      match u.initU st1.nextId with
      | (u1, nid1, evs) =>
        ({ st1 with scenes := insertU (insertU st1.scenes n u) n u1,
                    nextId := nid1, log := st1.log ++ evs }, none)
    else ({ st1 with scenes := insertU st1.scenes n u }, none)

/-- sceneManager.js dispose: disposes every registered unit, clears the
registry and all references, resets the active name and the flag. -/
def SceneManager.disposeM (st : MState) : MState :=
  let evs := st.scenes.foldl (fun acc p => acc ++ (p.2.disposeU).2) []
  { scenes := [], currentSceneName := none, isInitialized := false,
    hasCameraManager := false, hasLightsManager := false, hasModelLoader := false,
    nextId := st.nextId, log := st.log ++ evs }

/-- sceneManager.js initializeScenes: constructs a Scene1 and a Scene2 unit
and initializes each (each unit is stored in the registry before its init
runs; the modelled init is total, so this operation always succeeds). -/
def SceneManager.initializeScenes (st : MState) : MState :=
  match Scene1.new.initU st.nextId with
  | (u1, nid1, evs1) =>
    match Scene2.new.initU nid1 with
    | (u2, nid2, evs2) =>
      { st with scenes := insertU (insertU st.scenes "scene1" u1) "scene2" u2,
                nextId := nid2, log := st.log ++ evs1 ++ evs2 }

/-- sceneManager.js init: stores the three service references, constructs and
initializes Scene1 and Scene2 via initializeScenes, then switches to the
default scene "scene1"; only on full success is `isInitialized` set (a failed
default switch would rethrow before the flag assignment). -/
def SceneManager.initM (st : MState) : MState × Option Err :=
  match SceneManager.switchScene "scene1"
      (SceneManager.initializeScenes
        { st with hasCameraManager := true, hasLightsManager := true,
                  hasModelLoader := true }) with
  | (st3, some e) => (st3, some e)
  | (st3, none) => ({ st3 with isInitialized := true }, none)

/-- sceneManager.js getCurrentSceneModelCount: 0 with no active scene,
otherwise the active unit's getModelCount. -/
def SceneManager.getCurrentSceneModelCount (st : MState) : Nat :=
  match st.currentSceneName with
  | none => 0
  | some n =>
    match st.getUnit n with
    | none => 0
    | some u => u.getModelCount

/-- One manager operation, for quantifying over operation sequences. -/
inductive MOp where
  | initM
  | switchScene (n : String)
  | addScene (n : String) (u : SceneUnit)
  | removeScene (n : String)
  | loadModel (t : String)
  | removeModel (t : String)
  | clearModels
  | update
  | dispose
deriving Repr

/-- Run one operation; the state after a throwing call is the partially
mutated state the source would leave behind. -/
def applyOp (st : MState) : MOp → MState
  | MOp.initM => (SceneManager.initM st).1
  | MOp.switchScene n => (SceneManager.switchScene n st).1
  | MOp.addScene n u => (SceneManager.addScene n u st).1
  | MOp.removeScene n => (SceneManager.removeScene n st).1
  | MOp.loadModel t => (SceneManager.loadModelIntoCurrentScene t st).1
  | MOp.removeModel t => (SceneManager.removeModelFromCurrentScene t st).1
  | MOp.clearModels => (SceneManager.clearCurrentSceneModels st).1
  | MOp.update => SceneManager.update st
  | MOp.dispose => SceneManager.disposeM st

/-- Run a sequence of operations from a fresh manager. -/
def runOps (ops : List MOp) : MState :=
  ops.foldl applyOp SceneManager.new

/-- The registry invariant: the active name, if set, is a key of `scenes`. -/
def RegInv (st : MState) : Prop :=
  ∀ n, st.currentSceneName = some n → (st.getUnit n).isSome

/-- The registry invariant expressed on the two relevant components. -/
def RegInvL (scenes : List (String × SceneUnit)) (cur : Option String) : Prop :=
  ∀ n, cur = some n → (lookupU scenes n).isSome

/-- Visual state of Scene1's named static decor, the part of the unit state
mutated by Scene1.animateObjects (rotations in radians, the sphere height,
all rationals; the source mutates `rotation` / `position` fields of the named
meshes).  In an initialized Scene1 every one of these objects is present in
the graph (static decor is never removed), so the `if (cube)` style guards of
the source all succeed; this structure models exactly that case. -/
structure Scene1Anim where
  cubeRotX : ℚ
  cubeRotY : ℚ
  sphereY : ℚ
  torusRotX : ℚ
  torusRotY : ℚ
  cylinderRotY : ℚ
  coneRotZ : ℚ
deriving Repr, DecidableEq

/-- Scene1.animateObjects: `time = Date.now() * 0.001`; the cube, torus and
cylinder rotations are incremented by a fixed constant per call, while the
sphere height and the cone sway are set from the wall-clock phase.  `msin` is
the external Math.sin function, passed in explicitly; `now` is the Date.now()
value. -/
def Scene1.animateObjects (msin : ℚ → ℚ) (now : ℚ) (s : Scene1Anim) : Scene1Anim :=
  { cubeRotX := s.cubeRotX + 1 / 100
    cubeRotY := s.cubeRotY + 1 / 100
    sphereY := 12 / 10 + msin (now * (1 / 1000) * 2) * (3 / 10)
    torusRotX := s.torusRotX + 2 / 100
    torusRotY := s.torusRotY + 1 / 100
    cylinderRotY := s.cylinderRotY + 15 / 1000
    coneRotZ := msin (now * (1 / 1000)) * (1 / 10) }

/-- Scene1.update restricted to its animation effect: no-op when the unit is
not initialized, otherwise animateObjects (deltaTime is not used by the
animation). -/
def Scene1.updateAnim (isInit : Bool) (msin : ℚ → ℚ) (now : ℚ) (s : Scene1Anim) :
    Scene1Anim :=
  if isInit then Scene1.animateObjects msin now s else s

/-- The manager state right after `new SceneManager()` followed by a
successful `init` (both scenes built, default scene "scene1" active). -/
def stInit : MState := (SceneManager.initM SceneManager.new).1

/-- A manager holding one registered but never-initialized unit "x" (its
scene handle is null): `addScene` before `init`, when no services are
available, registers the unit without initializing it. -/
def stWithNull : MState := (SceneManager.addScene "x" Scene1.new SceneManager.new).1

/-- stInit after loading two cube models into the active scene "scene1"
(their ids are 19 and 20: init consumed ids 0..18). -/
def stTwoCubes : MState :=
  (SceneManager.loadModelIntoCurrentScene "cube"
    (SceneManager.loadModelIntoCurrentScene "cube" stInit).1).1

/-- stTwoCubes after one removeModelFromCurrentScene("cube"). -/
def stAfterRemove : MState :=
  (SceneManager.removeModelFromCurrentScene "cube" stTwoCubes).1

/-- The model object created by loadModel for type "cube" with identity
`nid` (createStyledCube / createAdvancedCube plus the userData tagging). -/
def loadedCube (u : SceneUnit) (nid : Nat) : Obj :=
  ⟨nid, loadedModelName u.kind "cube", true, "cube"⟩

/-- The unit after a successful loadModel("cube") on a unit whose scene graph
was `g`: the new model is appended to the graph and to `objects`. -/
def afterLoadUnit (u : SceneUnit) (g : List Nat) (nid : Nat) : SceneUnit :=
  { u with scene := some (g ++ [nid]), objects := u.objects ++ [loadedCube u nid] }

/-- The Scene1 unit exactly as produced by a fresh manager init (ids 0..7). -/
def u1Init : SceneUnit := (Scene1.new.initU 0).1

/-- The Scene2 unit exactly as produced by a fresh manager init (ids 8..18). -/
def u2Init : SceneUnit := (Scene2.new.initU 8).1

/-- JavaScript remainder `x % 1`, as used by
`(time * 0.1 + index * 0.1) % 1` in Scene2.animateObjects: x minus its
integer part truncated toward zero. -/
def jsMod1 (x : ℚ) : ℚ := x - (if 0 ≤ x then ((⌊x⌋ : ℤ) : ℚ) else ((⌈x⌉ : ℤ) : ℚ))

/-- Visual state of one floating platform (Scene2): the height is set from
the wall-clock phase each call, the rotation accumulates. -/
structure PlatformAnim where
  posY : ℚ
  rotY : ℚ
deriving Repr, DecidableEq

/-- Visual state of one glowing orb (Scene2) together with its attached
point light (every orb receives a child light during init, so the
`if (light)` guard of the source always succeeds). -/
structure OrbAnim where
  posY : ℚ
  rotY : ℚ
  hue : ℚ
  lightness : ℚ
  lightIntensity : ℚ
  lightHue : ℚ
  lightLightness : ℚ
deriving Repr, DecidableEq

/-- Visual state of one crystal (Scene2). -/
structure CrystalAnim where
  rotY : ℚ
  opacity : ℚ
deriving Repr, DecidableEq

/-- `children.forEach((child, index) => ...)` over a list, starting at
index `i`. -/
def mapWithIndex {α : Type} (f : Nat → α → α) : Nat → List α → List α
  | _, [] => []
  | i, a :: rest => f i a :: mapWithIndex f (i + 1) rest

/-- Scene2.animateObjects, platform body:
`platform.position.y = 2 + index * 1.5 + Math.sin(time + index) * 0.5;
platform.rotation.y += 0.01`. -/
def platformStep (msin : ℚ → ℚ) (now : ℚ) (i : Nat) (p : PlatformAnim) :
    PlatformAnim :=
  { posY := 2 + (i : ℚ) * (3 / 2) + msin (now * (1 / 1000) + (i : ℚ)) * (1 / 2),
    rotY := p.rotY + 1 / 100 }

/-- Scene2.animateObjects, orb body: the height accumulates
`Math.sin(time * 2 + index) * 0.01`, the rotation accumulates 0.02, the
emissive color is set to HSL((time * 0.1 + index * 0.1) % 1, 1, intensity)
with `intensity = 0.3 + Math.sin(time * 3 + index) * 0.2`, and the child
light's intensity and color are set to those same values. -/
def orbStep (msin : ℚ → ℚ) (now : ℚ) (i : Nat) (o : OrbAnim) : OrbAnim :=
  { posY := o.posY + msin (now * (1 / 1000) * 2 + (i : ℚ)) * (1 / 100),
    rotY := o.rotY + 2 / 100,
    hue := jsMod1 (now * (1 / 1000) * (1 / 10) + (i : ℚ) * (1 / 10)),
    lightness := 3 / 10 + msin (now * (1 / 1000) * 3 + (i : ℚ)) * (2 / 10),
    lightIntensity := 3 / 10 + msin (now * (1 / 1000) * 3 + (i : ℚ)) * (2 / 10),
    lightHue := jsMod1 (now * (1 / 1000) * (1 / 10) + (i : ℚ) * (1 / 10)),
    lightLightness := 3 / 10 + msin (now * (1 / 1000) * 3 + (i : ℚ)) * (2 / 10) }

/-- Scene2.animateObjects, crystal body: `crystal.rotation.y += 0.01;
crystal.material.opacity = 0.8 + Math.sin(time * 2 + index) * 0.2`. -/
def crystalStep (msin : ℚ → ℚ) (now : ℚ) (i : Nat) (c : CrystalAnim) :
    CrystalAnim :=
  { rotY := c.rotY + 1 / 100,
    opacity := 8 / 10 + msin (now * (1 / 1000) * 2 + (i : ℚ)) * (2 / 10) }

/-- Scene2.updateParticles, per-particle y step:
`positions[i] += 0.01; if (positions[i] > 20) positions[i] = 0`. -/
def particleStep (y : ℚ) : ℚ := if y + 1 / 100 > 20 then 0 else y + 1 / 100

/-- Visual state of Scene2's animated decor: the spiral structure's
rotation, the floating platforms (3 in the source), the glowing orbs (6),
the crystals (5), and the particle system (cloud rotation plus the
particles' y-coordinates).  In an initialized Scene2 every named group is
present in the graph (static decor is never removed), so the
getObjectByName guards of the source all succeed; this structure models
exactly that case. -/
structure Scene2Anim where
  spiralRotY : ℚ
  platforms : List PlatformAnim
  orbs : List OrbAnim
  crystals : List CrystalAnim
  particlesRotY : ℚ
  particlesY : List ℚ
deriving Repr, DecidableEq

/-- Scene2.animateObjects: `time = Date.now() * 0.001`; the spiral rotation
accumulates 0.005 per call and the platform, orb and crystal children are
visited with forEach((child, index) => ...); deltaTime is unused and the
particle system is untouched here. -/
def Scene2.animateObjects (msin : ℚ → ℚ) (now : ℚ) (s : Scene2Anim) :
    Scene2Anim :=
  { s with spiralRotY := s.spiralRotY + 5 / 1000,
           platforms := mapWithIndex (platformStep msin now) 0 s.platforms,
           orbs := mapWithIndex (orbStep msin now) 0 s.orbs,
           crystals := mapWithIndex (crystalStep msin now) 0 s.crystals }

/-- Scene2.updateParticles: the particle cloud rotation accumulates 0.001
per call and every particle y moves up by 0.01, wrapping to 0 above 20. -/
def Scene2.updateParticles (s : Scene2Anim) : Scene2Anim :=
  { s with particlesRotY := s.particlesRotY + 1 / 1000,
           particlesY := s.particlesY.map particleStep }

/-- Scene2.update restricted to its animation effect: no-op when the unit
is not initialized, otherwise animateObjects followed by updateParticles
(deltaTime is unused by both). -/
def Scene2.updateAnim (isInit : Bool) (msin : ℚ → ℚ) (now : ℚ) (s : Scene2Anim) :
    Scene2Anim :=
  if isInit then Scene2.updateParticles (Scene2.animateObjects msin now s) else s

/-- A concrete Scene2 visual state with the source's group sizes
(3 platforms, 6 orbs, 5 crystals, 100 particles). -/
def s2W : Scene2Anim :=
  { spiralRotY := 0,
    platforms := List.replicate 3 ⟨0, 0⟩,
    orbs := List.replicate 6 ⟨0, 0, 0, 0, 0, 0, 0⟩,
    crystals := List.replicate 5 ⟨0, 0⟩,
    particlesRotY := 0,
    particlesY := List.replicate 100 0 }

theorem lookupU_insertU (l : List (String × SceneUnit)) (n : String) (u : SceneUnit)
    (m : String) :
    lookupU (insertU l n u) m = if m = n then some u else lookupU l m := by
  induction l with
  | nil =>
    by_cases hm : m = n
    · subst hm; simp [insertU, lookupU]
    · simp [insertU, lookupU, hm, Ne.symm hm]
  | cons hd rest ih =>
    obtain ⟨k, v⟩ := hd
    by_cases hk : k = n
    · subst hk
      by_cases hm : m = k
      · subst hm; simp [insertU, lookupU]
      · simp [insertU, lookupU, hm, Ne.symm hm]
    · by_cases hm : m = k
      · subst hm
        simp [insertU, lookupU, hk]
      · simp [insertU, lookupU, hk, hm, Ne.symm hm, ih]

theorem lookupU_eraseKey (l : List (String × SceneUnit)) (n m : String) (h : m ≠ n) :
    lookupU (eraseKey l n) m = lookupU l m := by
  induction l with
  | nil => simp [eraseKey]
  | cons hd rest ih =>
    obtain ⟨k, v⟩ := hd
    by_cases hk : k = n
    · subst hk
      simp [eraseKey, lookupU, Ne.symm h]
    · simp [eraseKey, lookupU, hk, ih]

theorem regInv_iff (st : MState) : RegInv st ↔ RegInvL st.scenes st.currentSceneName :=
  Iff.rfl

theorem regInvL_insert {l : List (String × SceneUnit)} {cur : Option String}
    {n : String} {u : SceneUnit} (h : RegInvL l cur) : RegInvL (insertU l n u) cur := by
  intro m hm
  rw [lookupU_insertU]
  split_ifs with he
  · simp
  · exact h m hm

theorem regInvL_erase {l : List (String × SceneUnit)} {cur : Option String}
    {n : String} (h : RegInvL l cur) (hne : cur ≠ some n) :
    RegInvL (eraseKey l n) cur := by
  intro m hm
  rw [lookupU_eraseKey]
  · exact h m hm
  · intro hmn
    exact hne (hmn ▸ hm)

theorem regInvL_some {l : List (String × SceneUnit)} {n : String}
    (hs : (lookupU l n).isSome) : RegInvL l (some n) := by
  intro m hm
  obtain rfl : n = m := Option.some.inj hm
  exact hs

theorem applyCameraSettings_logOnly (n : String) (st : MState) :
    ∃ evs, applyCameraSettings n st = { st with log := st.log ++ evs } := by
  unfold applyCameraSettings
  split_ifs
  · exact ⟨_, rfl⟩
  · exact ⟨_, rfl⟩
  · exact ⟨[], by simp⟩
  · exact ⟨[], by simp⟩

theorem applyLightingSettings_logOnly (n : String) (st : MState) :
    ∃ evs, applyLightingSettings n st = { st with log := st.log ++ evs } := by
  unfold applyLightingSettings
  split_ifs
  · exact ⟨_, rfl⟩
  · exact ⟨_, rfl⟩
  · exact ⟨[], by simp⟩
  · exact ⟨[], by simp⟩

theorem performSceneTransition_logOnly (n : String) (st : MState) :
    ∃ evs, (performSceneTransition n st).1 = { st with log := st.log ++ evs } := by
  unfold performSceneTransition
  rcases hu : st.getUnit n with - | u
  · exact ⟨[], by simp⟩
  · rcases hs : u.scene with - | g
    · refine ⟨[], ?_⟩
      simp only [hs]
      simp
    · obtain ⟨e1, h1⟩ := applyCameraSettings_logOnly n st
      obtain ⟨e2, h2⟩ := applyLightingSettings_logOnly n (applyCameraSettings n st)
      refine ⟨e1 ++ e2, ?_⟩
      simp only [hs]
      rw [h2, h1]
      simp

theorem regInv_switchScene (n : String) (st : MState) (h : RegInv st) :
    RegInv (SceneManager.switchScene n st).1 := by
  unfold SceneManager.switchScene
  split_ifs with hu hc
  · exact h
  · rcases ht : performSceneTransition n st with ⟨st1, e⟩
    obtain ⟨evs, hlog⟩ := performSceneTransition_logOnly n st
    rw [ht] at hlog
    simp only at hlog
    cases e with
    | none =>
      intro m hm
      have hm2 : some n = some m := hm
      obtain rfl : n = m := Option.some.inj hm2
      show (lookupU st1.scenes n).isSome
      rw [hlog]
      exact hu
    | some err =>
      intro m hm
      have hm2 : st1.currentSceneName = some m := hm
      rw [hlog] at hm2
      show (lookupU st1.scenes m).isSome
      rw [hlog]
      exact h m hm2
  · exact h

theorem update_eq (st : MState) : SceneManager.update st = st := by
  unfold SceneManager.update
  split_ifs
  · rcases hc : st.currentSceneName with - | n <;> rfl
  · rfl

theorem regInv_load (t : String) (st : MState) (h : RegInv st) :
    RegInv (SceneManager.loadModelIntoCurrentScene t st).1 := by
  unfold SceneManager.loadModelIntoCurrentScene
  split
  · exact h
  · split
    · exact h
    · split
      intro m hm
      have hm2 : st.currentSceneName = some m := hm
      simp only [MState.getUnit, lookupU_insertU]
      split_ifs with he
      · simp
      · exact h m hm2

theorem regInv_removeModel (t : String) (st : MState) (h : RegInv st) :
    RegInv (SceneManager.removeModelFromCurrentScene t st).1 := by
  unfold SceneManager.removeModelFromCurrentScene
  split
  · exact h
  · split
    · exact h
    · split
      intro m hm
      have hm2 : st.currentSceneName = some m := hm
      simp only [MState.getUnit, lookupU_insertU]
      split_ifs with he
      · simp
      · exact h m hm2

theorem regInv_clearModels (st : MState) (h : RegInv st) :
    RegInv (SceneManager.clearCurrentSceneModels st).1 := by
  unfold SceneManager.clearCurrentSceneModels
  split
  · exact h
  · split
    · exact h
    · split
      intro m hm
      have hm2 : st.currentSceneName = some m := hm
      simp only [MState.getUnit, lookupU_insertU]
      split_ifs with he
      · simp
      · exact h m hm2

theorem regInv_removeScene (n : String) (st : MState) (h : RegInv st) :
    RegInv (SceneManager.removeScene n st).1 := by
  unfold SceneManager.removeScene
  split
  · exact h
  · split_ifs with hc
    · exact h
    · intro m hm
      have hm2 : st.currentSceneName = some m := hm
      show (lookupU (eraseKey st.scenes n) m).isSome
      rw [lookupU_eraseKey]
      · exact h m hm2
      · intro hmn
        exact hc (hmn ▸ hm2)

theorem regInv_addScene (n : String) (u : SceneUnit) (st : MState) (h : RegInv st) :
    RegInv (SceneManager.addScene n u st).1 := by
  unfold SceneManager.addScene
  rcases hstep : (if (st.getUnit n).isSome then
      SceneManager.removeScene n
        { st with log := st.log ++ [Ev.warnSceneExistsReplacing n] }
    else (st, none)) with ⟨st1, e⟩
  have h1 : RegInv st1 := by
    by_cases hex : (st.getUnit n).isSome
    · rw [if_pos hex] at hstep
      have hrem := regInv_removeScene n
        { st with log := st.log ++ [Ev.warnSceneExistsReplacing n] } h
      rw [hstep] at hrem
      exact hrem
    · rw [if_neg hex] at hstep
      have he1 : st1 = st := congrArg Prod.fst hstep.symm
      rw [he1]
      exact h
  cases e with
  | some err => exact h1
  | none =>
    split
    · rename_i st1x e heq
      injection heq with hq1 hq2
      exact Option.noConfusion hq2
    · rename_i st1x heq
      injection heq with hq1 hq2
      subst hq1
      split_ifs with hsvc
      · split
        intro m hmm
        have hm2 : st1.currentSceneName = some m := hmm
        simp only [MState.getUnit, lookupU_insertU]
        split_ifs with he
        · simp
        · exact h1 m hm2
      · intro m hmm
        have hm2 : st1.currentSceneName = some m := hmm
        simp only [MState.getUnit, lookupU_insertU]
        split_ifs with he
        · simp
        · exact h1 m hm2

theorem regInv_initializeScenes (st : MState) (h : RegInv st) :
    RegInv (SceneManager.initializeScenes st) := by
  unfold SceneManager.initializeScenes
  split
  split
  intro m hm
  have hm2 : st.currentSceneName = some m := hm
  simp only [MState.getUnit, lookupU_insertU]
  split_ifs with h1 h2
  · simp
  · simp
  · exact h m hm2

theorem regInv_initM (st : MState) (h : RegInv st) :
    RegInv (SceneManager.initM st).1 := by
  unfold SceneManager.initM
  have h0 : RegInv { st with hasCameraManager := true, hasLightsManager := true,
                             hasModelLoader := true } := h
  have h2 := regInv_initializeScenes _ h0
  have h3 := regInv_switchScene "scene1" _ h2
  rcases hsw : SceneManager.switchScene "scene1"
      (SceneManager.initializeScenes
        { st with hasCameraManager := true, hasLightsManager := true,
                  hasModelLoader := true }) with ⟨st3, e⟩
  rw [hsw] at h3
  cases e with
  | some err => exact h3
  | none => exact h3

theorem regInv_dispose (st : MState) : RegInv (SceneManager.disposeM st) := by
  intro m hm
  exact Option.noConfusion hm

theorem regInv_applyOp (st : MState) (op : MOp) (h : RegInv st) :
    RegInv (applyOp st op) := by
  cases op with
  | initM => exact regInv_initM st h
  | switchScene n => exact regInv_switchScene n st h
  | addScene n u => exact regInv_addScene n u st h
  | removeScene n => exact regInv_removeScene n st h
  | loadModel t => exact regInv_load t st h
  | removeModel t => exact regInv_removeModel t st h
  | clearModels => exact regInv_clearModels st h
  | update => show RegInv (SceneManager.update st); rw [update_eq]; exact h
  | dispose => exact regInv_dispose st

/-- Claim C1: for every sequence of manager operations (init, switchScene,
addScene, removeScene, loadModelIntoCurrentScene, removeModelFromCurrentScene,
clearCurrentSceneModels, update, dispose) starting from a fresh SceneManager,
the state invariant holds after each operation: if currentSceneName is set, it
is a key present in the scenes registry.  (Every prefix of a sequence is
itself a sequence, so quantifying over all sequences covers "after each
operation".) -/
theorem sceneManager_registry_invariant (ops : List MOp) : RegInv (runOps ops) := by
  have hgen : ∀ (l : List MOp) (st : MState), RegInv st → RegInv (l.foldl applyOp st) := by
    intro l
    induction l with
    | nil => intro st h; exact h
    | cons op rest ih =>
      intro st h
      exact ih (applyOp st op) (regInv_applyOp st op h)
  exact hgen ops SceneManager.new (fun m hm => Option.noConfusion hm)

/-- Claim C3: for every manager state with an active scene (which, per the
registry invariant, is a registered name), calling switchScene with the
currently active scene's name returns without error and the state before and
after is identical — the same active name, the same registry (hence the same
per-scene object and model counts), and an unchanged event log (no camera or
lighting preset re-applied). -/
theorem switchScene_active_idempotent (st : MState) (n : String)
    (hr : (st.getUnit n).isSome) (hc : st.currentSceneName = some n) :
    SceneManager.switchScene n st = (st, none) := by
  unfold SceneManager.switchScene
  rw [if_pos hr, if_pos hc]

/-- Witness for C3: switching to "scene1" in the state where "scene1" is
already active returns the state unchanged. -/
theorem switchScene_active_idempotent_witness :
    SceneManager.switchScene "scene1" stInit = (stInit, none) :=
  switchScene_active_idempotent stInit "scene1" (by decide) (by decide)

/-- Counterexample to claim C2: loadModelIntoCurrentScene on a manager with
no active scene does raise a hard failure — it returns the
no-active-scene error to the caller (the catch block rethrows) — and logs no
warning (the state, including the warning log, is exactly unchanged), so the
three model operations are not all warn-and-no-op. -/
theorem noActiveScene_load_throws_cex :
    (SceneManager.loadModelIntoCurrentScene "cube" SceneManager.new).2 =
      some Err.noActiveSceneLoad ∧
    (SceneManager.loadModelIntoCurrentScene "cube" SceneManager.new).1 =
      SceneManager.new := by
  exact ⟨rfl, rfl⟩

/-- Claim C2 as amended: with no active scene,
removeModelFromCurrentScene and clearCurrentSceneModels log a warning and are
no-ops (no registry or unit change, no hard failure), while
loadModelIntoCurrentScene raises an error surfaced to the caller and leaves
the state (registry, units, log) unchanged. -/
theorem noActiveScene_model_ops (st : MState) (t : String)
    (hc : st.currentSceneName = none) :
    SceneManager.loadModelIntoCurrentScene t st = (st, some Err.noActiveSceneLoad) ∧
    SceneManager.removeModelFromCurrentScene t st =
      ({ st with log := st.log ++ [Ev.warnNoActiveSceneRemove] }, none) ∧
    SceneManager.clearCurrentSceneModels st =
      ({ st with log := st.log ++ [Ev.warnNoActiveSceneClear] }, none) := by
  refine ⟨?_, ?_, ?_⟩
  · unfold SceneManager.loadModelIntoCurrentScene
    rw [hc]
  · unfold SceneManager.removeModelFromCurrentScene
    rw [hc]
  · unfold SceneManager.clearCurrentSceneModels
    rw [hc]

/-- Witness for the amended C2, at a fresh manager and model type "cube". -/
theorem noActiveScene_model_ops_witness :
    SceneManager.loadModelIntoCurrentScene "cube" SceneManager.new =
      (SceneManager.new, some Err.noActiveSceneLoad) ∧
    SceneManager.removeModelFromCurrentScene "cube" SceneManager.new =
      ({ SceneManager.new with
           log := SceneManager.new.log ++ [Ev.warnNoActiveSceneRemove] }, none) ∧
    SceneManager.clearCurrentSceneModels SceneManager.new =
      ({ SceneManager.new with
           log := SceneManager.new.log ++ [Ev.warnNoActiveSceneClear] }, none) :=
  noActiveScene_model_ops SceneManager.new "cube" rfl

/-- Claim C5: removeScene of the active name always fails with the
active-scene-removal error and leaves the whole state (registry included)
unchanged — no unit disposed, no key deleted, no event logged; removeScene of
a registered non-active name disposes the unit (releasing its objects'
resources) and deletes its key; removeScene of an unknown name is a no-op
apart from a logged warning. -/
theorem removeScene_cases (st : MState) (n : String) :
    ((st.getUnit n).isSome → st.currentSceneName = some n →
      SceneManager.removeScene n st = (st, some (Err.activeSceneRemoval n))) ∧
    (st.getUnit n = none →
      SceneManager.removeScene n st =
        ({ st with log := st.log ++ [Ev.warnSceneNotFound n] }, none)) ∧
    (∀ u, st.getUnit n = some u → st.currentSceneName ≠ some n →
      SceneManager.removeScene n st =
        ({ st with scenes := eraseKey st.scenes n,
                   log := st.log ++ (u.disposeU).2 }, none)) := by
  refine ⟨?_, ?_, ?_⟩
  · intro hs hc
    obtain ⟨u, hu⟩ := Option.isSome_iff_exists.mp hs
    unfold SceneManager.removeScene
    rw [hu]
    show (if st.currentSceneName = some n then (st, some (Err.activeSceneRemoval n))
          else ({ st with scenes := eraseKey st.scenes n,
                          log := st.log ++ (u.disposeU).2 }, none)) =
         (st, some (Err.activeSceneRemoval n))
    rw [if_pos hc]
  · intro hn
    unfold SceneManager.removeScene
    rw [hn]
  · intro u hu hc
    unfold SceneManager.removeScene
    rw [hu]
    show (if st.currentSceneName = some n then (st, some (Err.activeSceneRemoval n))
          else ({ st with scenes := eraseKey st.scenes n,
                          log := st.log ++ (u.disposeU).2 }, none)) = _
    rw [if_neg hc]

/-- Witness for C5: removing the active scene "scene1" right after init fails
with the active-scene-removal error and changes nothing. -/
theorem removeScene_cases_witness :
    SceneManager.removeScene "scene1" stInit =
      (stInit, some (Err.activeSceneRemoval "scene1")) :=
  (removeScene_cases stInit "scene1").1 (by decide) (by decide)

/-- Claim C10: in any manager state whose active scene (if any) has a live
scene graph — the situation the manager itself maintains, since the null
check runs before every activation — switchScene to a registered name whose
unit's getScene() is null fails with the not-properly-initialized error and
is atomic: the whole state is unchanged, so the active name is untouched and
no camera or lighting preset event is emitted, because the null-scene check
precedes preset application and the active-name assignment. -/
theorem switchScene_null_scene_atomic (st : MState) (n : String) (u : SceneUnit)
    (hu : st.getUnit n = some u) (hnull : u.scene = none)
    (hlive : ∀ m w, st.currentSceneName = some m → st.getUnit m = some w →
      w.scene.isSome) :
    SceneManager.switchScene n st = (st, some (Err.notProperlyInit n)) := by
  have hc : st.currentSceneName ≠ some n := by
    intro hcn
    have hw := hlive n u hcn hu
    rw [hnull] at hw
    exact Bool.noConfusion hw
  have ht : performSceneTransition n st = (st, some (Err.notProperlyInit n)) := by
    unfold performSceneTransition
    rw [hu]
    show (match u.scene with
          | none => (st, some (Err.notProperlyInit n))
          | some _ => (applyLightingSettings n (applyCameraSettings n st), none)) =
         (st, some (Err.notProperlyInit n))
    rw [hnull]
  unfold SceneManager.switchScene
  rw [if_pos (by simp [hu]), if_neg hc, ht]

/-- Witness for C10: the registered, never-initialized unit "x" (null scene
handle) cannot be switched to; the state is returned unchanged with the
not-properly-initialized error. -/
theorem switchScene_null_scene_atomic_witness :
    SceneManager.switchScene "x" stWithNull =
      (stWithNull, some (Err.notProperlyInit "x")) :=
  switchScene_null_scene_atomic stWithNull "x" Scene1.new (by decide) rfl
    (fun m w hm _ => Option.noConfusion hm)

theorem switchScene_success (n : String) (st : MState) (u : SceneUnit)
    (hu : st.getUnit n = some u) (hs : u.scene.isSome)
    (hc : st.currentSceneName ≠ some n) :
    ∃ evs, SceneManager.switchScene n st =
      ({ st with currentSceneName := some n, log := st.log ++ evs }, none) := by
  obtain ⟨g, hg⟩ := Option.isSome_iff_exists.mp hs
  obtain ⟨e1, h1⟩ := applyCameraSettings_logOnly n st
  obtain ⟨e2, h2⟩ := applyLightingSettings_logOnly n (applyCameraSettings n st)
  have ht : performSceneTransition n st =
      (applyLightingSettings n (applyCameraSettings n st), none) := by
    unfold performSceneTransition
    rw [hu]
    show (match u.scene with
          | none => (st, some (Err.notProperlyInit n))
          | some _ => (applyLightingSettings n (applyCameraSettings n st), none)) =
         (applyLightingSettings n (applyCameraSettings n st), none)
    rw [hg]
  refine ⟨e1 ++ e2, ?_⟩
  unfold SceneManager.switchScene
  rw [if_pos (by simp [hu]), if_neg hc, ht]
  rw [h2, h1]
  simp

/-- Claim C4: for distinct registered, initialized scenes A and B with A
active, switchScene(B) followed by switchScene(A) succeeds, ends with A
active, and leaves the registry untouched throughout — in particular A's
unit (hence its loaded-model count and the identity of its objects) is
exactly the one from before: switching never tears down or re-initializes the
previously active scene's unit. -/
theorem switch_away_and_back_preserves (st : MState) (a b : String)
    (ua ub : SceneUnit)
    (hab : a ≠ b)
    (hca : st.currentSceneName = some a)
    (hua : st.getUnit a = some ua) (hub : st.getUnit b = some ub)
    (hsa : ua.scene.isSome) (hsb : ub.scene.isSome) :
    (SceneManager.switchScene b st).2 = none ∧
    (SceneManager.switchScene b st).1.currentSceneName = some b ∧
    (SceneManager.switchScene b st).1.scenes = st.scenes ∧
    (SceneManager.switchScene a (SceneManager.switchScene b st).1).2 = none ∧
    (SceneManager.switchScene a (SceneManager.switchScene b st).1).1.currentSceneName
      = some a ∧
    (SceneManager.switchScene a (SceneManager.switchScene b st).1).1.scenes
      = st.scenes ∧
    (SceneManager.switchScene a (SceneManager.switchScene b st).1).1.getUnit a
      = some ua := by
  have hcb : st.currentSceneName ≠ some b := by
    rw [hca]
    intro h
    exact hab (Option.some.inj h)
  obtain ⟨e1, hsw1⟩ := switchScene_success b st ub hub hsb hcb
  have hua1 : ({ st with currentSceneName := some b, log := st.log ++ e1 }
      : MState).getUnit a = some ua := hua
  have hca1 : ({ st with currentSceneName := some b, log := st.log ++ e1 }
      : MState).currentSceneName ≠ some a := by
    intro h
    exact hab (Option.some.inj h).symm
  obtain ⟨e2, hsw2⟩ := switchScene_success a
    { st with currentSceneName := some b, log := st.log ++ e1 } ua hua1 hsa hca1
  rw [hsw1]
  refine ⟨rfl, rfl, rfl, ?_, ?_, ?_, ?_⟩ <;> rw [hsw2]
  exact hua

theorem removeFirstBy_filter_length (p q : Obj → Bool)
    (hpq : ∀ o, p o = true → q o = true) :
    ∀ (l : List Obj) (x : Obj) (r : List Obj), removeFirstBy p l = some (x, r) →
      (r.filter q).length + 1 = (l.filter q).length := by
  intro l
  induction l with
  | nil =>
    intro x r h
    exact Option.noConfusion h
  | cons o rest ih =>
    intro x r h
    unfold removeFirstBy at h
    split_ifs at h with hpo
    · cases h
      simp [List.filter_cons, hpq o hpo]
    · cases hrec : removeFirstBy p rest with
      | none =>
        rw [hrec] at h
        exact Option.noConfusion h
      | some pr =>
        obtain ⟨m, r2⟩ := pr
        have hlen := ih m r2 hrec
        rw [hrec] at h
        cases h
        cases hqo : q o <;> simp [List.filter_cons, hqo] <;> omega

theorem removeFirstBy_append_isSome (p : Obj → Bool) (m : Obj) (hm : p m = true) :
    ∀ l, (removeFirstBy p (l ++ [m])).isSome := by
  intro l
  induction l with
  | nil => simp [removeFirstBy, hm]
  | cons o rest ih =>
    simp only [List.cons_append]
    unfold removeFirstBy
    split_ifs with hpo
    · simp
    · cases hrec : removeFirstBy p (rest ++ [m]) with
      | none =>
        rw [hrec] at ih
        simp at ih
      | some pr =>
        obtain ⟨mm, rr⟩ := pr
        simp

theorem removeFirstBy_append_last (p : Obj → Bool) (m : Obj) (hm : p m = true) :
    ∀ l, (∀ o ∈ l, p o = false) → removeFirstBy p (l ++ [m]) = some (m, l) := by
  intro l
  induction l with
  | nil =>
    intro _
    simp [removeFirstBy, hm]
  | cons o rest ih =>
    intro hall
    have hpo : p o = false := hall o (by simp)
    simp only [List.cons_append]
    unfold removeFirstBy
    rw [if_neg (by simp [hpo])]
    rw [ih (fun x hx => hall x (by simp [hx]))]

theorem filter_not_filter (l : List Obj) :
    (l.filter (fun o => !o.isLoadedModel)).filter (fun o => o.isLoadedModel) = [] := by
  induction l with
  | nil => rfl
  | cons o rest ih => cases ho : o.isLoadedModel <;> simp [List.filter_cons, ho, ih]

theorem loadModel_success (u : SceneUnit) (t : String) (nid : Nat) (g : List Nat)
    (ht : t = "cube" ∨ t = "sphere") (hg : u.scene = some g) :
    u.loadModel t nid =
      ({ u with scene := some (g ++ [nid]),
                objects := u.objects ++ [⟨nid, loadedModelName u.kind t, true, t⟩] },
       nid + 1, [], none) := by
  unfold SceneUnit.loadModel
  rw [if_pos ht, hg]

theorem removeModel_found (u : SceneUnit) (t : String) (x : Obj) (r : List Obj)
    (g : List Nat)
    (hfind : removeFirstBy (fun o => o.isLoadedModel && o.modelType == t) u.objects
      = some (x, r))
    (hg : u.scene = some g) :
    u.removeModel t =
      ({ u with scene := some (g.erase x.id), objects := r },
       [Ev.release x.id], none) := by
  unfold SceneUnit.removeModel
  rw [hfind]
  show (match u.scene with
        | none => (u, [], some Err.typeError)
        | some g2 =>
          ({ u with scene := some (g2.erase x.id), objects := r },
           [Ev.release x.id], none)) = _
  rw [hg]

theorem clearModels_spec_unit (u : SceneUnit) (g : List Nat) (hg : u.scene = some g) :
    ∃ u2 evs, u.clearModels = (u2, evs, none) ∧
      u2.objects = u.objects.filter (fun o => !o.isLoadedModel) := by
  unfold SceneUnit.clearModels
  cases hlm : u.objects.filter (fun o => o.isLoadedModel) with
  | nil => exact ⟨_, _, rfl, rfl⟩
  | cons lm rest =>
    rw [hg]
    exact ⟨_, _, rfl, rfl⟩

theorem loadModelIntoCurrentScene_eq (t : String) (st : MState) (n : String)
    (u : SceneUnit) (hc : st.currentSceneName = some n) (hu : st.getUnit n = some u) :
    SceneManager.loadModelIntoCurrentScene t st =
      ({ st with scenes := insertU st.scenes n (u.loadModel t st.nextId).1,
                 nextId := (u.loadModel t st.nextId).2.1,
                 log := st.log ++ (u.loadModel t st.nextId).2.2.1 },
       (u.loadModel t st.nextId).2.2.2) := by
  unfold SceneManager.loadModelIntoCurrentScene
  split
  · rename_i hnone
    rw [hc] at hnone
    exact Option.noConfusion hnone
  · rename_i n2 hsome
    rw [hc] at hsome
    obtain rfl := Option.some.inj hsome
    split
    · rename_i hnone2
      rw [hu] at hnone2
      exact Option.noConfusion hnone2
    · rename_i u2 hu2
      rw [hu] at hu2
      obtain rfl := Option.some.inj hu2
      split
      rename_i u1 nid1 evs err hl
      rw [hl]

theorem removeModelFromCurrentScene_eq (t : String) (st : MState) (n : String)
    (u : SceneUnit) (hc : st.currentSceneName = some n) (hu : st.getUnit n = some u) :
    SceneManager.removeModelFromCurrentScene t st =
      ({ st with scenes := insertU st.scenes n (u.removeModel t).1,
                 log := st.log ++ (u.removeModel t).2.1 },
       (u.removeModel t).2.2) := by
  unfold SceneManager.removeModelFromCurrentScene
  split
  · rename_i hnone
    rw [hc] at hnone
    exact Option.noConfusion hnone
  · rename_i n2 hsome
    rw [hc] at hsome
    obtain rfl := Option.some.inj hsome
    split
    · rename_i hnone2
      rw [hu] at hnone2
      exact Option.noConfusion hnone2
    · rename_i u2 hu2
      rw [hu] at hu2
      obtain rfl := Option.some.inj hu2
      split
      rename_i u1 evs err hr
      rw [hr]

theorem clearCurrentSceneModels_eq (st : MState) (n : String)
    (u : SceneUnit) (hc : st.currentSceneName = some n) (hu : st.getUnit n = some u) :
    SceneManager.clearCurrentSceneModels st =
      ({ st with scenes := insertU st.scenes n (u.clearModels).1,
                 log := st.log ++ (u.clearModels).2.1 },
       (u.clearModels).2.2) := by
  unfold SceneManager.clearCurrentSceneModels
  split
  · rename_i hnone
    rw [hc] at hnone
    exact Option.noConfusion hnone
  · rename_i n2 hsome
    rw [hc] at hsome
    obtain rfl := Option.some.inj hsome
    split
    · rename_i hnone2
      rw [hu] at hnone2
      exact Option.noConfusion hnone2
    · rename_i u2 hu2
      rw [hu] at hu2
      obtain rfl := Option.some.inj hu2
      split
      rename_i u1 evs err hr
      rw [hr]

theorem getCount_eq (st : MState) (n : String) (u : SceneUnit)
    (hc : st.currentSceneName = some n) (hu : st.getUnit n = some u) :
    SceneManager.getCurrentSceneModelCount st = u.getModelCount := by
  unfold SceneManager.getCurrentSceneModelCount
  rw [hc]
  show (match st.getUnit n with
        | none => 0
        | some w => w.getModelCount) = _
  rw [hu]

/-- Claim C7: for every active, initialized scene with any number of loaded
models, clearCurrentSceneModels reduces the active scene's loaded-model count
to 0 while leaving the static decor objects — the objects not flagged as
loaded models — unchanged in count and identity (the surviving objects list
is exactly the original list filtered to the non-loaded objects, preserving
order and object identity). -/
theorem clearModels_count_zero_statics_unchanged (st : MState) (n : String)
    (u : SceneUnit) (g : List Nat)
    (hc : st.currentSceneName = some n) (hu : st.getUnit n = some u)
    (hg : u.scene = some g) :
    (SceneManager.clearCurrentSceneModels st).2 = none ∧
    SceneManager.getCurrentSceneModelCount
      (SceneManager.clearCurrentSceneModels st).1 = 0 ∧
    ∀ u2, (SceneManager.clearCurrentSceneModels st).1.getUnit n = some u2 →
      u2.objects = u.objects.filter (fun o => !o.isLoadedModel) := by
  obtain ⟨u2, evs, hcm, hobj⟩ := clearModels_spec_unit u g hg
  have heq := clearCurrentSceneModels_eq st n u hc hu
  rw [hcm] at heq
  have h1 : (SceneManager.clearCurrentSceneModels st).1.currentSceneName = some n := by
    rw [heq]
    exact hc
  have h2 : (SceneManager.clearCurrentSceneModels st).1.getUnit n = some u2 := by
    rw [heq]
    show lookupU (insertU st.scenes n u2) n = some u2
    rw [lookupU_insertU]
    simp
  refine ⟨?_, ?_, ?_⟩
  · rw [heq]
  · rw [getCount_eq _ n u2 h1 h2]
    show (u2.objects.filter (fun o => o.isLoadedModel)).length = 0
    rw [hobj, filter_not_filter]
    rfl
  · intro u2x hu2x
    rw [h2] at hu2x
    obtain rfl := Option.some.inj hu2x
    exact hobj

/-- Witness for C7: clearing the active scene "scene1" holding two loaded
cubes empties its loaded models and keeps the six static decor objects. -/
theorem clearModels_count_zero_statics_unchanged_witness :
    (SceneManager.clearCurrentSceneModels stTwoCubes).2 = none ∧
    SceneManager.getCurrentSceneModelCount
      (SceneManager.clearCurrentSceneModels stTwoCubes).1 = 0 ∧
    ∀ u2, (SceneManager.clearCurrentSceneModels stTwoCubes).1.getUnit "scene1"
        = some u2 →
      u2.objects = ((stTwoCubes.getUnit "scene1").getD Scene1.new).objects.filter
        (fun o => !o.isLoadedModel) :=
  clearModels_count_zero_statics_unchanged stTwoCubes "scene1"
    ((stTwoCubes.getUnit "scene1").getD Scene1.new)
    (((stTwoCubes.getUnit "scene1").getD Scene1.new).scene.getD [])
    (by decide) (by decide) (by decide)

theorem erase_append_singleton (g : List Nat) (a : Nat) (h : a ∉ g) :
    (g ++ [a]).erase a = g := by
  induction g with
  | nil => simp
  | cons x rest ih =>
    have hxa : x ≠ a := by
      intro hh
      subst hh
      exact h (List.mem_cons_self x rest)
    simp only [List.cons_append, List.erase_cons]
    simp [hxa, ih (fun hmem => h (List.mem_cons_of_mem x hmem))]

/-- Claim C6 as amended: on an active, initialized scene,
loadModelIntoCurrentScene("cube") succeeds and increments the scene's
loaded-model count by exactly 1, and a subsequent
removeModelFromCurrentScene("cube") succeeds and decrements the count back to
the prior value by removing the first cube-tagged loaded model in insertion
order; when no cube-tagged model already existed, that first match is the
newly loaded model and the unit is restored exactly (the loaded model is
removed from the objects list and the scene graph).  (`hgf` is the freshness
of the next object identity, maintained by the id supply.) -/
theorem load_remove_cube (st : MState) (n : String) (u : SceneUnit) (g : List Nat)
    (hc : st.currentSceneName = some n) (hu : st.getUnit n = some u)
    (hg : u.scene = some g) (hgf : st.nextId ∉ g) :
    (SceneManager.loadModelIntoCurrentScene "cube" st).2 = none ∧
    SceneManager.getCurrentSceneModelCount
        (SceneManager.loadModelIntoCurrentScene "cube" st).1 =
      SceneManager.getCurrentSceneModelCount st + 1 ∧
    (SceneManager.removeModelFromCurrentScene "cube"
        (SceneManager.loadModelIntoCurrentScene "cube" st).1).2 = none ∧
    SceneManager.getCurrentSceneModelCount
        (SceneManager.removeModelFromCurrentScene "cube"
          (SceneManager.loadModelIntoCurrentScene "cube" st).1).1 =
      SceneManager.getCurrentSceneModelCount st ∧
    ((∀ o ∈ u.objects, (o.isLoadedModel && o.modelType == "cube") = false) →
      (SceneManager.removeModelFromCurrentScene "cube"
        (SceneManager.loadModelIntoCurrentScene "cube" st).1).1.getUnit n = some u) := by
  have hload : SceneManager.loadModelIntoCurrentScene "cube" st =
      ({ st with scenes := insertU st.scenes n (afterLoadUnit u g st.nextId),
                 nextId := st.nextId + 1, log := st.log ++ [] }, none) := by
    rw [loadModelIntoCurrentScene_eq "cube" st n u hc hu,
        loadModel_success u "cube" st.nextId g (Or.inl rfl) hg]
    rfl
  have h1c : (SceneManager.loadModelIntoCurrentScene "cube" st).1.currentSceneName
      = some n := by
    rw [hload]
    exact hc
  have h1u : (SceneManager.loadModelIntoCurrentScene "cube" st).1.getUnit n
      = some (afterLoadUnit u g st.nextId) := by
    rw [hload]
    show lookupU (insertU st.scenes n (afterLoadUnit u g st.nextId)) n
      = some (afterLoadUnit u g st.nextId)
    rw [lookupU_insertU]
    simp
  have hcnt0 : SceneManager.getCurrentSceneModelCount st = u.getModelCount :=
    getCount_eq st n u hc hu
  have hflt : ((u.objects ++ [loadedCube u st.nextId]).filter
      (fun o => o.isLoadedModel)).length
      = (u.objects.filter (fun o => o.isLoadedModel)).length + 1 := by
    simp [loadedCube, List.filter_append]
  have hcnt1 : SceneManager.getCurrentSceneModelCount
      (SceneManager.loadModelIntoCurrentScene "cube" st).1 = u.getModelCount + 1 := by
    rw [getCount_eq _ n _ h1c h1u]
    show ((afterLoadUnit u g st.nextId).objects.filter
      (fun o => o.isLoadedModel)).length = u.getModelCount + 1
    exact hflt
  have hpm : ((loadedCube u st.nextId).isLoadedModel
      && (loadedCube u st.nextId).modelType == "cube") = true := rfl
  obtain ⟨pr, hfind⟩ := Option.isSome_iff_exists.mp
    (removeFirstBy_append_isSome (fun o => o.isLoadedModel && o.modelType == "cube")
      (loadedCube u st.nextId) hpm u.objects)
  obtain ⟨x, r⟩ := pr
  have hrm : (afterLoadUnit u g st.nextId).removeModel "cube" =
      ({ afterLoadUnit u g st.nextId with
           scene := some ((g ++ [st.nextId]).erase x.id), objects := r },
       [Ev.release x.id], none) :=
    removeModel_found (afterLoadUnit u g st.nextId) "cube" x r (g ++ [st.nextId])
      hfind rfl
  have hremove := removeModelFromCurrentScene_eq "cube"
    (SceneManager.loadModelIntoCurrentScene "cube" st).1 n
    (afterLoadUnit u g st.nextId) h1c h1u
  rw [hrm] at hremove
  have h2c : (SceneManager.removeModelFromCurrentScene "cube"
      (SceneManager.loadModelIntoCurrentScene "cube" st).1).1.currentSceneName
      = some n := by
    rw [hremove]
    exact h1c
  have h2u : (SceneManager.removeModelFromCurrentScene "cube"
      (SceneManager.loadModelIntoCurrentScene "cube" st).1).1.getUnit n
      = some { afterLoadUnit u g st.nextId with
                 scene := some ((g ++ [st.nextId]).erase x.id), objects := r } := by
    rw [hremove]
    show lookupU (insertU (SceneManager.loadModelIntoCurrentScene "cube" st).1.scenes n
        { afterLoadUnit u g st.nextId with
            scene := some ((g ++ [st.nextId]).erase x.id), objects := r }) n = _
    rw [lookupU_insertU]
    simp
  have hpq : ∀ o : Obj, (o.isLoadedModel && o.modelType == "cube") = true →
      o.isLoadedModel = true := by
    intro o ho
    exact (Bool.and_eq_true _ _ |>.mp ho).1
  have hlen := removeFirstBy_filter_length
    (fun o => o.isLoadedModel && o.modelType == "cube") (fun o => o.isLoadedModel) hpq
    (u.objects ++ [loadedCube u st.nextId]) x r hfind
  refine ⟨?_, ?_, ?_, ?_, ?_⟩
  · rw [hload]
  · rw [hcnt1, hcnt0]
  · rw [hremove]
  · rw [getCount_eq _ n _ h2c h2u, hcnt0]
    show (r.filter (fun o => o.isLoadedModel)).length = u.getModelCount
    have hgmc : u.getModelCount = (u.objects.filter (fun o => o.isLoadedModel)).length :=
      rfl
    rw [hflt] at hlen
    omega
  · intro hno
    have hfind2 := removeFirstBy_append_last
      (fun o => o.isLoadedModel && o.modelType == "cube") (loadedCube u st.nextId) hpm
      u.objects hno
    have hxr := Option.some.inj (hfind.symm.trans hfind2)
    have hx : x = loadedCube u st.nextId := congrArg Prod.fst hxr
    have hr : r = u.objects := congrArg Prod.snd hxr
    subst hx
    subst hr
    rw [h2u]
    have herase : (g ++ [st.nextId]).erase (loadedCube u st.nextId).id = g := by
      show (g ++ [st.nextId]).erase st.nextId = g
      exact erase_append_singleton g st.nextId hgf
    have hunit : ({ afterLoadUnit u g st.nextId with
        scene := some ((g ++ [st.nextId]).erase (loadedCube u st.nextId).id),
        objects := u.objects } : SceneUnit) = u := by
      rw [herase]
      show ({ u with scene := some g, objects := u.objects } : SceneUnit) = u
      rw [← hg]
    rw [hunit]

/-- Witness for the amended C6, on the freshly initialized manager with
active scene "scene1" (next id 19, no cube model present, so the qualified
part applies as well). -/
theorem load_remove_cube_witness :
    (SceneManager.loadModelIntoCurrentScene "cube" stInit).2 = none ∧
    SceneManager.getCurrentSceneModelCount
        (SceneManager.loadModelIntoCurrentScene "cube" stInit).1 =
      SceneManager.getCurrentSceneModelCount stInit + 1 ∧
    (SceneManager.removeModelFromCurrentScene "cube"
        (SceneManager.loadModelIntoCurrentScene "cube" stInit).1).2 = none ∧
    SceneManager.getCurrentSceneModelCount
        (SceneManager.removeModelFromCurrentScene "cube"
          (SceneManager.loadModelIntoCurrentScene "cube" stInit).1).1 =
      SceneManager.getCurrentSceneModelCount stInit ∧
    ((∀ o ∈ u1Init.objects, (o.isLoadedModel && o.modelType == "cube") = false) →
      (SceneManager.removeModelFromCurrentScene "cube"
        (SceneManager.loadModelIntoCurrentScene "cube" stInit).1).1.getUnit "scene1"
        = some u1Init) :=
  load_remove_cube stInit "scene1" u1Init (u1Init.scene.getD [])
    (by decide) (by decide) (by decide) (by decide)

/-- Counterexample to claim C6 as stated: on a scene that already holds a
cube-tagged loaded model, a further loadModelIntoCurrentScene("cube")
followed by removeModelFromCurrentScene("cube") removes the first matching
cube (first-match-wins), not the newly loaded one.  After init the next
object id is 19; the first loaded cube gets id 19 and the second id 20;
after the removal the model loaded by the last call (id 20) is still in the
active scene's objects list while the earlier cube (id 19) is gone — so "the
loaded model is removed from the objects list and the scene graph" fails at
this input. -/
theorem load_remove_cube_first_match_cex :
    ((stAfterRemove.getUnit "scene1").elim false
      (fun u => u.objects.any (fun o => o.id == 20)
        && u.objects.all (fun o => o.id != 19))) = true := by
  decide

/-- Witness for C4: switching from the active "scene1" to "scene2" and back
preserves the registry and returns the identical Scene1 unit. -/
theorem switch_away_and_back_preserves_witness :
    (SceneManager.switchScene "scene2" stInit).2 = none ∧
    (SceneManager.switchScene "scene2" stInit).1.currentSceneName = some "scene2" ∧
    (SceneManager.switchScene "scene2" stInit).1.scenes = stInit.scenes ∧
    (SceneManager.switchScene "scene1"
      (SceneManager.switchScene "scene2" stInit).1).2 = none ∧
    (SceneManager.switchScene "scene1"
      (SceneManager.switchScene "scene2" stInit).1).1.currentSceneName
      = some "scene1" ∧
    (SceneManager.switchScene "scene1"
      (SceneManager.switchScene "scene2" stInit).1).1.scenes = stInit.scenes ∧
    (SceneManager.switchScene "scene1"
      (SceneManager.switchScene "scene2" stInit).1).1.getUnit "scene1"
      = some u1Init :=
  switch_away_and_back_preserves stInit "scene1" "scene2" u1Init u2Init
    (by decide) (by decide) (by decide) (by decide) (by decide) (by decide)

theorem removeScene_active (st : MState) (n : String) (w : SceneUnit)
    (hw : st.getUnit n = some w) (hcn : st.currentSceneName = some n) :
    SceneManager.removeScene n st = (st, some (Err.activeSceneRemoval n)) := by
  unfold SceneManager.removeScene
  rw [hw]
  show (if st.currentSceneName = some n then (st, some (Err.activeSceneRemoval n))
        else ({ st with scenes := eraseKey st.scenes n,
                        log := st.log ++ (w.disposeU).2 }, none)) = _
  rw [if_pos hcn]

theorem removeScene_inactive (st : MState) (n : String) (w : SceneUnit)
    (hw : st.getUnit n = some w) (hcn : st.currentSceneName ≠ some n) :
    SceneManager.removeScene n st =
      ({ st with scenes := eraseKey st.scenes n,
                 log := st.log ++ (w.disposeU).2 }, none) := by
  unfold SceneManager.removeScene
  rw [hw]
  show (if st.currentSceneName = some n then (st, some (Err.activeSceneRemoval n))
        else ({ st with scenes := eraseKey st.scenes n,
                        log := st.log ++ (w.disposeU).2 }, none)) = _
  rw [if_neg hcn]

/-- Claim C8 as amended: addScene(name, unit) registers the new unit —
replacing and disposing any existing unit under that name, and initializing
the new unit immediately when the camera, lighting and model-loader services
are all available — for every name EXCEPT the currently active scene's
name: when the name is registered and active, the internal removeScene call
throws ActiveSceneRemovalError, which addScene rethrows, so the registration
is aborted and the registry is left unchanged (only the replace warning is
logged). -/
theorem addScene_cases (st : MState) (n : String) (u : SceneUnit) :
    (∀ w, st.getUnit n = some w → st.currentSceneName = some n →
      SceneManager.addScene n u st =
        ({ st with log := st.log ++ [Ev.warnSceneExistsReplacing n] },
         some (Err.activeSceneRemoval n))) ∧
    (st.getUnit n = none →
      SceneManager.addScene n u st =
        (if st.hasCameraManager && st.hasLightsManager && st.hasModelLoader then
          ({ st with
               scenes := insertU (insertU st.scenes n u) n (u.initU st.nextId).1,
               nextId := (u.initU st.nextId).2.1,
               log := st.log ++ (u.initU st.nextId).2.2 }, none)
        else ({ st with scenes := insertU st.scenes n u }, none))) ∧
    (∀ w, st.getUnit n = some w → st.currentSceneName ≠ some n →
      SceneManager.addScene n u st =
        (if st.hasCameraManager && st.hasLightsManager && st.hasModelLoader then
          ({ st with
               scenes := insertU (insertU (eraseKey st.scenes n) n u) n
                 (u.initU st.nextId).1,
               nextId := (u.initU st.nextId).2.1,
               log := st.log ++ [Ev.warnSceneExistsReplacing n] ++ (w.disposeU).2
                 ++ (u.initU st.nextId).2.2 }, none)
        else ({ st with scenes := insertU (eraseKey st.scenes n) n u,
                        log := st.log ++ [Ev.warnSceneExistsReplacing n]
                          ++ (w.disposeU).2 }, none))) := by
  refine ⟨?_, ?_, ?_⟩
  · intro w hw hcn
    unfold SceneManager.addScene
    rw [if_pos (by simp [hw] : ((st.getUnit n).isSome) = true)]
    rw [removeScene_active { st with log := st.log ++ [Ev.warnSceneExistsReplacing n] }
      n w hw hcn]
  · intro hn
    unfold SceneManager.addScene
    rw [if_neg (by simp [hn])]
  · intro w hw hcn
    unfold SceneManager.addScene
    rw [if_pos (by simp [hw] : ((st.getUnit n).isSome) = true)]
    rw [removeScene_inactive
      { st with log := st.log ++ [Ev.warnSceneExistsReplacing n] } n w hw hcn]

/-- Counterexample to claim C8 as stated: addScene under the currently
active scene's name does not register the new unit.  After init, "scene1" is
active; addScene("scene1", new Scene1()) fails with the
active-scene-removal error and the registry still holds the original
initialized Scene1 unit, not the fresh one. -/
theorem addScene_active_name_fails_cex :
    (SceneManager.addScene "scene1" Scene1.new stInit).2 =
      some (Err.activeSceneRemoval "scene1") ∧
    (SceneManager.addScene "scene1" Scene1.new stInit).1.getUnit "scene1" =
      some u1Init ∧
    (SceneManager.addScene "scene1" Scene1.new stInit).1.scenes = stInit.scenes := by
  refine ⟨?_, ?_, ?_⟩ <;> decide

/-- Witness for the amended C8: adding a fresh name on a fresh manager (no
services yet, none active) registers the unit without initializing it. -/
theorem addScene_cases_witness :
    SceneManager.new.getUnit "x" = none ∧
    SceneManager.addScene "x" Scene1.new SceneManager.new =
      ({ SceneManager.new with
           scenes := insertU SceneManager.new.scenes "x" Scene1.new }, none) :=
  ⟨rfl, by
    rw [(addScene_cases SceneManager.new "x" Scene1.new).2.1 rfl]
    rfl⟩

/-- Counterexample to claim C9: two consecutive update calls at the same
wall-clock instant do not leave the visual state identical to a single call.
At wall-clock 0 with the zero-state and the sine stand-in evaluating to 0,
the second call advances the cube rotation from 1/100 to 2/100 (the source
executes `cube.rotation.x += 0.01` per call, an accumulated increment, not a
wall-clock-derived phase); the torus and cylinder rotations accumulate the
same way. -/
theorem scene1_update_not_idempotent_cex :
    Scene1.updateAnim true (fun _ => 0) 0
        (Scene1.updateAnim true (fun _ => 0) 0 ⟨0, 0, 0, 0, 0, 0, 0⟩) ≠
      Scene1.updateAnim true (fun _ => 0) 0 ⟨0, 0, 0, 0, 0, 0, 0⟩ := by
  intro h
  have hx := congrArg Scene1Anim.cubeRotX h
  simp only [Scene1.updateAnim, Scene1.animateObjects, if_true] at hx
  linarith

/-- Witness for C1: the invariant evaluated on a concrete operation
sequence (init, a model load, a failed active-scene removal, dispose). -/
theorem sceneManager_registry_invariant_witness :
    RegInv (runOps [MOp.initM, MOp.loadModel "cube",
      MOp.removeScene "scene1", MOp.dispose]) :=
  sceneManager_registry_invariant
    [MOp.initM, MOp.loadModel "cube", MOp.removeScene "scene1", MOp.dispose]

theorem mapWithIndex_length {α : Type} (f : Nat → α → α) :
    ∀ (i : Nat) (l : List α), (mapWithIndex f i l).length = l.length := by
  intro i l
  induction l generalizing i with
  | nil => rfl
  | cons a rest ih => simp [mapWithIndex, ih]

theorem mapWithIndex_map_pure {α β : Type} (f : Nat → α → α) (h : α → β)
    (hpure : ∀ i a b, h (f i a) = h (f i b)) :
    ∀ (i : Nat) (l l2 : List α), l.length = l2.length →
      (mapWithIndex f i l).map h = (mapWithIndex f i l2).map h := by
  intro i l
  induction l generalizing i with
  | nil =>
    intro l2 hl
    cases l2 with
    | nil => rfl
    | cons b rest2 => simp at hl
  | cons a rest ih =>
    intro l2 hl
    cases l2 with
    | nil => simp at hl
    | cons b rest2 =>
      simp only [mapWithIndex, List.map_cons]
      rw [hpure i a b, ih (i + 1) rest2 (by simpa using hl)]

theorem mapWithIndex_map_shift {α β : Type} (f : Nat → α → α) (h : α → β)
    (g : α → β) (hsh : ∀ i a, h (f i a) = g a) :
    ∀ (i : Nat) (l : List α), (mapWithIndex f i l).map h = l.map g := by
  intro i l
  induction l generalizing i with
  | nil => rfl
  | cons a rest ih =>
    simp only [mapWithIndex, List.map_cons]
    rw [hsh i a, ih (i + 1)]

theorem mapWithIndex_map_proj {α β : Type} (f : Nat → α → α) (h : α → β)
    (g : Nat → β → β) (hc : ∀ i a, h (f i a) = g i (h a)) :
    ∀ (i : Nat) (l : List α), (mapWithIndex f i l).map h = mapWithIndex g i (l.map h) := by
  intro i l
  induction l generalizing i with
  | nil => rfl
  | cons a rest ih =>
    simp only [mapWithIndex, List.map_cons]
    rw [hc i a, ih (i + 1)]

/-- Claim C9 as amended: update at a fixed wall-clock time is not
idempotent, in either scene unit and from any visual state (the first two
conjuncts).  Purely wall-clock-phase-derived, hence reproduced identically
by a repeated call at the same wall-clock time: Scene1's sphere height and
cone sway, Scene2's platform heights, orb emissive color and light pulsing
(hue, lightness, intensity), and crystal opacities.  Accumulating per call:
Scene1's cube, torus and cylinder rotations and Scene2's spiral, platform,
orb and crystal rotations each advance by their fixed increment on every
call; Scene2's orb heights advance by a wall-clock-dependent increment each
call, and the particle system (cloud rotation and particle heights) also
advances each call. -/
theorem update_phase_characterization (msin : ℚ → ℚ) (now : ℚ)
    (s1 : Scene1Anim) (s2 : Scene2Anim) :
    Scene1.updateAnim true msin now (Scene1.updateAnim true msin now s1) ≠
      Scene1.updateAnim true msin now s1 ∧
    Scene2.updateAnim true msin now (Scene2.updateAnim true msin now s2) ≠
      Scene2.updateAnim true msin now s2 ∧
    (Scene1.updateAnim true msin now (Scene1.updateAnim true msin now s1)).sphereY =
      (Scene1.updateAnim true msin now s1).sphereY ∧
    (Scene1.updateAnim true msin now (Scene1.updateAnim true msin now s1)).coneRotZ =
      (Scene1.updateAnim true msin now s1).coneRotZ ∧
    (Scene1.updateAnim true msin now s1).cubeRotX = s1.cubeRotX + 1 / 100 ∧
    (Scene1.updateAnim true msin now (Scene1.updateAnim true msin now s1)).cubeRotX =
      (Scene1.updateAnim true msin now s1).cubeRotX + 1 / 100 ∧
    (Scene1.updateAnim true msin now s1).cubeRotY = s1.cubeRotY + 1 / 100 ∧
    (Scene1.updateAnim true msin now (Scene1.updateAnim true msin now s1)).cubeRotY =
      (Scene1.updateAnim true msin now s1).cubeRotY + 1 / 100 ∧
    (Scene1.updateAnim true msin now s1).torusRotX = s1.torusRotX + 2 / 100 ∧
    (Scene1.updateAnim true msin now (Scene1.updateAnim true msin now s1)).torusRotX =
      (Scene1.updateAnim true msin now s1).torusRotX + 2 / 100 ∧
    (Scene1.updateAnim true msin now s1).torusRotY = s1.torusRotY + 1 / 100 ∧
    (Scene1.updateAnim true msin now (Scene1.updateAnim true msin now s1)).torusRotY =
      (Scene1.updateAnim true msin now s1).torusRotY + 1 / 100 ∧
    (Scene1.updateAnim true msin now s1).cylinderRotY = s1.cylinderRotY + 15 / 1000 ∧
    (Scene1.updateAnim true msin now
        (Scene1.updateAnim true msin now s1)).cylinderRotY =
      (Scene1.updateAnim true msin now s1).cylinderRotY + 15 / 1000 ∧
    (Scene2.updateAnim true msin now s2).spiralRotY = s2.spiralRotY + 5 / 1000 ∧
    (Scene2.updateAnim true msin now
        (Scene2.updateAnim true msin now s2)).spiralRotY =
      (Scene2.updateAnim true msin now s2).spiralRotY + 5 / 1000 ∧
    (Scene2.updateAnim true msin now
        (Scene2.updateAnim true msin now s2)).platforms.map PlatformAnim.posY =
      (Scene2.updateAnim true msin now s2).platforms.map PlatformAnim.posY ∧
    (Scene2.updateAnim true msin now s2).platforms.map PlatformAnim.rotY =
      s2.platforms.map (fun p => p.rotY + 1 / 100) ∧
    (Scene2.updateAnim true msin now
        (Scene2.updateAnim true msin now s2)).platforms.map PlatformAnim.rotY =
      (Scene2.updateAnim true msin now s2).platforms.map (fun p => p.rotY + 1 / 100) ∧
    (Scene2.updateAnim true msin now
        (Scene2.updateAnim true msin now s2)).orbs.map OrbAnim.hue =
      (Scene2.updateAnim true msin now s2).orbs.map OrbAnim.hue ∧
    (Scene2.updateAnim true msin now
        (Scene2.updateAnim true msin now s2)).orbs.map OrbAnim.lightness =
      (Scene2.updateAnim true msin now s2).orbs.map OrbAnim.lightness ∧
    (Scene2.updateAnim true msin now
        (Scene2.updateAnim true msin now s2)).orbs.map OrbAnim.lightIntensity =
      (Scene2.updateAnim true msin now s2).orbs.map OrbAnim.lightIntensity ∧
    (Scene2.updateAnim true msin now
        (Scene2.updateAnim true msin now s2)).orbs.map OrbAnim.lightHue =
      (Scene2.updateAnim true msin now s2).orbs.map OrbAnim.lightHue ∧
    (Scene2.updateAnim true msin now
        (Scene2.updateAnim true msin now s2)).orbs.map OrbAnim.lightLightness =
      (Scene2.updateAnim true msin now s2).orbs.map OrbAnim.lightLightness ∧
    (Scene2.updateAnim true msin now s2).orbs.map OrbAnim.rotY =
      s2.orbs.map (fun o => o.rotY + 2 / 100) ∧
    (Scene2.updateAnim true msin now
        (Scene2.updateAnim true msin now s2)).orbs.map OrbAnim.rotY =
      (Scene2.updateAnim true msin now s2).orbs.map (fun o => o.rotY + 2 / 100) ∧
    (Scene2.updateAnim true msin now s2).orbs.map OrbAnim.posY =
      mapWithIndex
        (fun i y => y + msin (now * (1 / 1000) * 2 + (i : ℚ)) * (1 / 100)) 0
        (s2.orbs.map OrbAnim.posY) ∧
    (Scene2.updateAnim true msin now
        (Scene2.updateAnim true msin now s2)).orbs.map OrbAnim.posY =
      mapWithIndex
        (fun i y => y + msin (now * (1 / 1000) * 2 + (i : ℚ)) * (1 / 100)) 0
        ((Scene2.updateAnim true msin now s2).orbs.map OrbAnim.posY) ∧
    (Scene2.updateAnim true msin now
        (Scene2.updateAnim true msin now s2)).crystals.map CrystalAnim.opacity =
      (Scene2.updateAnim true msin now s2).crystals.map CrystalAnim.opacity ∧
    (Scene2.updateAnim true msin now s2).crystals.map CrystalAnim.rotY =
      s2.crystals.map (fun c => c.rotY + 1 / 100) ∧
    (Scene2.updateAnim true msin now
        (Scene2.updateAnim true msin now s2)).crystals.map CrystalAnim.rotY =
      (Scene2.updateAnim true msin now s2).crystals.map (fun c => c.rotY + 1 / 100) ∧
    (Scene2.updateAnim true msin now s2).particlesRotY =
      s2.particlesRotY + 1 / 1000 ∧
    (Scene2.updateAnim true msin now
        (Scene2.updateAnim true msin now s2)).particlesRotY =
      (Scene2.updateAnim true msin now s2).particlesRotY + 1 / 1000 ∧
    (Scene2.updateAnim true msin now s2).particlesY =
      s2.particlesY.map particleStep ∧
    (Scene2.updateAnim true msin now
        (Scene2.updateAnim true msin now s2)).particlesY =
      (Scene2.updateAnim true msin now s2).particlesY.map particleStep := by
  refine ⟨?_, ?_, rfl, rfl, rfl, rfl, rfl, rfl, rfl, rfl, rfl, rfl, rfl, rfl,
    rfl, rfl, ?_, ?_, ?_, ?_, ?_, ?_, ?_, ?_, ?_, ?_, ?_, ?_, ?_, ?_, ?_,
    rfl, rfl, rfl, rfl⟩
  · intro h
    have hx := congrArg Scene1Anim.cubeRotX h
    simp only [Scene1.updateAnim, Scene1.animateObjects, if_true] at hx
    linarith
  · intro h
    have hx := congrArg Scene2Anim.spiralRotY h
    simp only [Scene2.updateAnim, Scene2.updateParticles, Scene2.animateObjects,
      if_true] at hx
    linarith
  · show (mapWithIndex (platformStep msin now) 0
        (Scene2.updateAnim true msin now s2).platforms).map PlatformAnim.posY =
      (mapWithIndex (platformStep msin now) 0 s2.platforms).map PlatformAnim.posY
    exact mapWithIndex_map_pure (platformStep msin now) PlatformAnim.posY
      (fun i a b => rfl) 0 (Scene2.updateAnim true msin now s2).platforms
      s2.platforms (mapWithIndex_length (platformStep msin now) 0 s2.platforms)
  · show (mapWithIndex (platformStep msin now) 0 s2.platforms).map PlatformAnim.rotY =
      s2.platforms.map (fun p => p.rotY + 1 / 100)
    exact mapWithIndex_map_shift (platformStep msin now) PlatformAnim.rotY
      (fun p => p.rotY + 1 / 100) (fun i a => rfl) 0 s2.platforms
  · show (mapWithIndex (platformStep msin now) 0
        (Scene2.updateAnim true msin now s2).platforms).map PlatformAnim.rotY =
      (Scene2.updateAnim true msin now s2).platforms.map (fun p => p.rotY + 1 / 100)
    exact mapWithIndex_map_shift (platformStep msin now) PlatformAnim.rotY
      (fun p => p.rotY + 1 / 100) (fun i a => rfl) 0
      (Scene2.updateAnim true msin now s2).platforms
  · show (mapWithIndex (orbStep msin now) 0
        (Scene2.updateAnim true msin now s2).orbs).map OrbAnim.hue =
      (mapWithIndex (orbStep msin now) 0 s2.orbs).map OrbAnim.hue
    exact mapWithIndex_map_pure (orbStep msin now) OrbAnim.hue
      (fun i a b => rfl) 0 (Scene2.updateAnim true msin now s2).orbs
      s2.orbs (mapWithIndex_length (orbStep msin now) 0 s2.orbs)
  · show (mapWithIndex (orbStep msin now) 0
        (Scene2.updateAnim true msin now s2).orbs).map OrbAnim.lightness =
      (mapWithIndex (orbStep msin now) 0 s2.orbs).map OrbAnim.lightness
    exact mapWithIndex_map_pure (orbStep msin now) OrbAnim.lightness
      (fun i a b => rfl) 0 (Scene2.updateAnim true msin now s2).orbs
      s2.orbs (mapWithIndex_length (orbStep msin now) 0 s2.orbs)
  · show (mapWithIndex (orbStep msin now) 0
        (Scene2.updateAnim true msin now s2).orbs).map OrbAnim.lightIntensity =
      (mapWithIndex (orbStep msin now) 0 s2.orbs).map OrbAnim.lightIntensity
    exact mapWithIndex_map_pure (orbStep msin now) OrbAnim.lightIntensity
      (fun i a b => rfl) 0 (Scene2.updateAnim true msin now s2).orbs
      s2.orbs (mapWithIndex_length (orbStep msin now) 0 s2.orbs)
  · show (mapWithIndex (orbStep msin now) 0
        (Scene2.updateAnim true msin now s2).orbs).map OrbAnim.lightHue =
      (mapWithIndex (orbStep msin now) 0 s2.orbs).map OrbAnim.lightHue
    exact mapWithIndex_map_pure (orbStep msin now) OrbAnim.lightHue
      (fun i a b => rfl) 0 (Scene2.updateAnim true msin now s2).orbs
      s2.orbs (mapWithIndex_length (orbStep msin now) 0 s2.orbs)
  · show (mapWithIndex (orbStep msin now) 0
        (Scene2.updateAnim true msin now s2).orbs).map OrbAnim.lightLightness =
      (mapWithIndex (orbStep msin now) 0 s2.orbs).map OrbAnim.lightLightness
    exact mapWithIndex_map_pure (orbStep msin now) OrbAnim.lightLightness
      (fun i a b => rfl) 0 (Scene2.updateAnim true msin now s2).orbs
      s2.orbs (mapWithIndex_length (orbStep msin now) 0 s2.orbs)
  · show (mapWithIndex (orbStep msin now) 0 s2.orbs).map OrbAnim.rotY =
      s2.orbs.map (fun o => o.rotY + 2 / 100)
    exact mapWithIndex_map_shift (orbStep msin now) OrbAnim.rotY
      (fun o => o.rotY + 2 / 100) (fun i a => rfl) 0 s2.orbs
  · show (mapWithIndex (orbStep msin now) 0
        (Scene2.updateAnim true msin now s2).orbs).map OrbAnim.rotY =
      (Scene2.updateAnim true msin now s2).orbs.map (fun o => o.rotY + 2 / 100)
    exact mapWithIndex_map_shift (orbStep msin now) OrbAnim.rotY
      (fun o => o.rotY + 2 / 100) (fun i a => rfl) 0
      (Scene2.updateAnim true msin now s2).orbs
  · show (mapWithIndex (orbStep msin now) 0 s2.orbs).map OrbAnim.posY =
      mapWithIndex
        (fun i y => y + msin (now * (1 / 1000) * 2 + (i : ℚ)) * (1 / 100)) 0
        (s2.orbs.map OrbAnim.posY)
    exact mapWithIndex_map_proj (orbStep msin now) OrbAnim.posY
      (fun i y => y + msin (now * (1 / 1000) * 2 + (i : ℚ)) * (1 / 100))
      (fun i a => rfl) 0 s2.orbs
  · show (mapWithIndex (orbStep msin now) 0
        (Scene2.updateAnim true msin now s2).orbs).map OrbAnim.posY =
      mapWithIndex
        (fun i y => y + msin (now * (1 / 1000) * 2 + (i : ℚ)) * (1 / 100)) 0
        ((Scene2.updateAnim true msin now s2).orbs.map OrbAnim.posY)
    exact mapWithIndex_map_proj (orbStep msin now) OrbAnim.posY
      (fun i y => y + msin (now * (1 / 1000) * 2 + (i : ℚ)) * (1 / 100))
      (fun i a => rfl) 0 (Scene2.updateAnim true msin now s2).orbs
  · show (mapWithIndex (crystalStep msin now) 0
        (Scene2.updateAnim true msin now s2).crystals).map CrystalAnim.opacity =
      (mapWithIndex (crystalStep msin now) 0 s2.crystals).map CrystalAnim.opacity
    exact mapWithIndex_map_pure (crystalStep msin now) CrystalAnim.opacity
      (fun i a b => rfl) 0 (Scene2.updateAnim true msin now s2).crystals
      s2.crystals (mapWithIndex_length (crystalStep msin now) 0 s2.crystals)
  · show (mapWithIndex (crystalStep msin now) 0 s2.crystals).map CrystalAnim.rotY =
      s2.crystals.map (fun c => c.rotY + 1 / 100)
    exact mapWithIndex_map_shift (crystalStep msin now) CrystalAnim.rotY
      (fun c => c.rotY + 1 / 100) (fun i a => rfl) 0 s2.crystals
  · show (mapWithIndex (crystalStep msin now) 0
        (Scene2.updateAnim true msin now s2).crystals).map CrystalAnim.rotY =
      (Scene2.updateAnim true msin now s2).crystals.map (fun c => c.rotY + 1 / 100)
    exact mapWithIndex_map_shift (crystalStep msin now) CrystalAnim.rotY
      (fun c => c.rotY + 1 / 100) (fun i a => rfl) 0
      (Scene2.updateAnim true msin now s2).crystals

/-- Witness for the amended C9: non-idempotence of a repeated update at
wall-clock 0 on concrete states of both scene units (Scene2 with the
source's group sizes). -/
theorem update_phase_characterization_witness :
    Scene1.updateAnim true (fun _ => 0) 0
        (Scene1.updateAnim true (fun _ => 0) 0 ⟨0, 0, 0, 0, 0, 0, 0⟩) ≠
      Scene1.updateAnim true (fun _ => 0) 0 ⟨0, 0, 0, 0, 0, 0, 0⟩ ∧
    Scene2.updateAnim true (fun _ => 0) 0
        (Scene2.updateAnim true (fun _ => 0) 0 s2W) ≠
      Scene2.updateAnim true (fun _ => 0) 0 s2W :=
  ⟨(update_phase_characterization (fun _ => 0) 0 ⟨0, 0, 0, 0, 0, 0, 0⟩ s2W).1,
   (update_phase_characterization (fun _ => 0) 0 ⟨0, 0, 0, 0, 0, 0, 0⟩ s2W).2.1⟩
